import Mathlib

/-!
Verification development for the Postgres execution-maps persistence plugin:
per-workflow-execution map collections (activity-info, timer-info,
child-execution-info, request-cancel-info, signal-info) and the
signals-requested id set, with Replace/Select/Delete operations generated
from per-kind schema descriptors.

The query-template layer below is a direct translation of the Go source:
the template constants are the raw string literals, and the maker functions
mirror fmt.Sprintf composition over them.  External collaborators that the
source calls but whose code is outside this repository (the sqlx parameter
expansion and rebind helpers, the timestamp converter, the row and filter
types of the sqlplugin interface, and the relational backend executing the
generated statements) are modelled from the specification at their
interface boundary; each such definition is marked in its doc comment.
-/

namespace ExecutionMaps

/-- Template of the delete-all statement; raw string from the source. -/
def deleteMapQueryTemplate : String :=
  "DELETE FROM %v\nWHERE\nshard_id = $1 AND\ndomain_id = $2 AND\nworkflow_id = $3 AND\nrun_id = $4"

/-- Template of the upsert statement; raw string from the source.  Argument 2
is the comma-joined value columns, argument 3 the same with colons prepended,
argument 4 the map-key column, argument 5 the value columns with
excluded. prepended. -/
def setKeyInMapQueryTemplate : String :=
  "INSERT INTO %[1]v\n(shard_id, domain_id, workflow_id, run_id, %[4]v, %[2]v)\nVALUES\n(:shard_id, :domain_id, :workflow_id, :run_id, :%[4]v, %[3]v)\nON CONFLICT (shard_id, domain_id, workflow_id, run_id, %[4]v) DO UPDATE\n\tSET (shard_id, domain_id, workflow_id, run_id, %[4]v, %[2]v)\n  \t  = (excluded.shard_id, excluded.domain_id, excluded.workflow_id, excluded.run_id, excluded.%[4]v, %[5]v)"

/-- Template of the delete-by-key-set statement; raw string from the source. -/
def deleteKeyInMapQueryTemplate : String :=
  "DELETE FROM %[1]v\nWHERE\nshard_id = ? AND\ndomain_id = ? AND\nworkflow_id = ? AND\nrun_id = ? AND\n%[2]v IN ( ? )"

/-- Template of the select-all statement; raw string from the source. -/
def getMapQueryTemplate : String :=
  "SELECT %[2]v, %[3]v FROM %[1]v\nWHERE\nshard_id = $1 AND\ndomain_id = $2 AND\nworkflow_id = $3 AND\nrun_id = $4"

/-- Delete-all statement of the signals-requested set; raw string from the
source (note the trailing newline present in the Go literal). -/
def deleteAllSignalsRequestedSetQuery : String :=
  "DELETE FROM signals_requested_sets\nWHERE\nshard_id = $1 AND\ndomain_id = $2 AND\nworkflow_id = $3 AND\nrun_id = $4\n"

/-- Insert statement of the signals-requested set; raw string from the
source. -/
def createSignalsRequestedSetQuery : String :=
  "INSERT INTO signals_requested_sets\n(shard_id, domain_id, workflow_id, run_id, signal_id) VALUES\n(:shard_id, :domain_id, :workflow_id, :run_id, :signal_id)\nON CONFLICT (shard_id, domain_id, workflow_id, run_id, signal_id) DO NOTHING"

/-- Delete-by-key-set statement of the signals-requested set; raw string from
the source. -/
def deleteSignalsRequestedSetQuery : String :=
  "DELETE FROM signals_requested_sets\nWHERE\nshard_id = ? AND\ndomain_id = ? AND\nworkflow_id = ? AND\nrun_id = ? AND\nsignal_id IN ( ? )"

/-- Select statement of the signals-requested set; raw string from the
source. -/
def getSignalsRequestedSetQuery : String :=
  "SELECT signal_id FROM signals_requested_sets WHERE\nshard_id = $1 AND\ndomain_id = $2 AND\nworkflow_id = $3 AND\nrun_id = $4"

/-- Translation of the Go helper stringMap: maps a function over a string
slice. -/
def stringMap (a : List String) (f : String → String) : List String :=
  a.map f

/-- Model of fmt.Sprintf restricted to the verbs the templates use: a plain
%v consumes the next argument, an indexed %[n]v consumes the n-th argument
(1-based) and resets the cursor after it, everything else is copied. -/
def sprintfV : List Char → List String → Nat → List Char
  | '%' :: '[' :: d :: ']' :: 'v' :: rest, args, _ =>
      (args.getD (d.toNat - 49) "").toList ++ sprintfV rest args (d.toNat - 48)
  | '%' :: 'v' :: rest, args, next =>
      (args.getD next "").toList ++ sprintfV rest args (next + 1)
  | c :: rest, args, next => c :: sprintfV rest args next
  | [], _, _ => []

/-- Builds the delete-all query for a table; mirrors makeDeleteMapQry. -/
def makeDeleteMapQry (tableName : String) : String :=
  ⟨sprintfV deleteMapQueryTemplate.toList [tableName] 0⟩

/-- Builds the upsert query for a table; mirrors makeSetKeyInMapQry. -/
def makeSetKeyInMapQry (tableName : String) (nonPrimaryKeyColumns : List String)
    (mapKeyName : String) : String :=
  ⟨sprintfV setKeyInMapQueryTemplate.toList
    [tableName,
     String.intercalate "," nonPrimaryKeyColumns,
     String.intercalate "," (stringMap nonPrimaryKeyColumns (fun x => ":" ++ x)),
     mapKeyName,
     String.intercalate "," (stringMap nonPrimaryKeyColumns (fun x => "excluded." ++ x))] 0⟩

/-- Builds the delete-by-key-set query for a table; mirrors
makeDeleteKeyInMapQry. -/
def makeDeleteKeyInMapQry (tableName : String) (mapKeyName : String) : String :=
  ⟨sprintfV deleteKeyInMapQueryTemplate.toList [tableName, mapKeyName] 0⟩

/-- Builds the select-all query for a table; mirrors makeGetMapQryTemplate. -/
def makeGetMapQryTemplate (tableName : String) (nonPrimaryKeyColumns : List String)
    (mapKeyName : String) : String :=
  ⟨sprintfV getMapQueryTemplate.toList
    [tableName, mapKeyName, String.intercalate "," nonPrimaryKeyColumns] 0⟩

/-- Value columns of activity_info_maps, from the source registry. -/
def activityInfoColumns : List String :=
  ["data", "data_encoding", "last_heartbeat_details", "last_heartbeat_updated_time"]

def activityInfoTableName : String := "activity_info_maps"

def activityInfoKey : String := "schedule_id"

def deleteActivityInfoMapQry : String := makeDeleteMapQry activityInfoTableName

def setKeyInActivityInfoMapQry : String :=
  makeSetKeyInMapQry activityInfoTableName activityInfoColumns activityInfoKey

def deleteKeyInActivityInfoMapQry : String :=
  makeDeleteKeyInMapQry activityInfoTableName activityInfoKey

def getActivityInfoMapQry : String :=
  makeGetMapQryTemplate activityInfoTableName activityInfoColumns activityInfoKey

/-- Value columns of timer_info_maps, from the source registry. -/
def timerInfoColumns : List String := ["data", "data_encoding"]

def timerInfoTableName : String := "timer_info_maps"

def timerInfoKey : String := "timer_id"

def deleteTimerInfoMapSQLQuery : String := makeDeleteMapQry timerInfoTableName

def setKeyInTimerInfoMapSQLQuery : String :=
  makeSetKeyInMapQry timerInfoTableName timerInfoColumns timerInfoKey

def deleteKeyInTimerInfoMapSQLQuery : String :=
  makeDeleteKeyInMapQry timerInfoTableName timerInfoKey

def getTimerInfoMapSQLQuery : String :=
  makeGetMapQryTemplate timerInfoTableName timerInfoColumns timerInfoKey

/-- Value columns of child_execution_info_maps, from the source registry. -/
def childExecutionInfoColumns : List String := ["data", "data_encoding"]

def childExecutionInfoTableName : String := "child_execution_info_maps"

def childExecutionInfoKey : String := "initiated_id"

def deleteChildExecutionInfoMapQry : String := makeDeleteMapQry childExecutionInfoTableName

def setKeyInChildExecutionInfoMapQry : String :=
  makeSetKeyInMapQry childExecutionInfoTableName childExecutionInfoColumns childExecutionInfoKey

def deleteKeyInChildExecutionInfoMapQry : String :=
  makeDeleteKeyInMapQry childExecutionInfoTableName childExecutionInfoKey

def getChildExecutionInfoMapQry : String :=
  makeGetMapQryTemplate childExecutionInfoTableName childExecutionInfoColumns childExecutionInfoKey

/-- Value columns of request_cancel_info_maps, from the source registry. -/
def requestCancelInfoColumns : List String := ["data", "data_encoding"]

def requestCancelInfoTableName : String := "request_cancel_info_maps"

def requestCancelInfoKey : String := "initiated_id"

def deleteRequestCancelInfoMapQry : String := makeDeleteMapQry requestCancelInfoTableName

def setKeyInRequestCancelInfoMapQry : String :=
  makeSetKeyInMapQry requestCancelInfoTableName requestCancelInfoColumns requestCancelInfoKey

def deleteKeyInRequestCancelInfoMapQry : String :=
  makeDeleteKeyInMapQry requestCancelInfoTableName requestCancelInfoKey

def getRequestCancelInfoMapQry : String :=
  makeGetMapQryTemplate requestCancelInfoTableName requestCancelInfoColumns requestCancelInfoKey

/-- Value columns of signal_info_maps, from the source registry. -/
def signalInfoColumns : List String := ["data", "data_encoding"]

def signalInfoTableName : String := "signal_info_maps"

def signalInfoKey : String := "initiated_id"

def deleteSignalInfoMapQry : String := makeDeleteMapQry signalInfoTableName

def setKeyInSignalInfoMapQry : String :=
  makeSetKeyInMapQry signalInfoTableName signalInfoColumns signalInfoKey

def deleteKeyInSignalInfoMapQry : String :=
  makeDeleteKeyInMapQry signalInfoTableName signalInfoKey

def getSignalInfoMapQry : String :=
  makeGetMapQryTemplate signalInfoTableName signalInfoColumns signalInfoKey

/-- A bound statement parameter: the operations bind integer ids and string
ids only. -/
inductive Param where
  | int (i : Int)
  | str (s : String)
deriving DecidableEq, Repr

/-- An argument passed to the variadic parameter-expansion helper: either a
scalar or a slice to be expanded inside an IN clause. -/
inductive Arg where
  | scalar (p : Param)
  | slice (ps : List Param)
deriving DecidableEq, Repr

/-- Whether an argument is a slice of length zero (the expansion helper
rejects those). -/
def Arg.isEmptySliceArg : Arg → Bool
  | .slice ps => ps.isEmpty
  | .scalar _ => false

/-- Number of bound parameters an argument contributes after expansion. -/
def Arg.boundLength : Arg → Nat
  | .scalar _ => 1
  | .slice ps => ps.length

/-- Flattens the argument list into the final bound-parameter list, slices
expanded in place. -/
def flattenArgs : List Arg → List Param
  | [] => []
  | .scalar p :: rest => p :: flattenArgs rest
  | .slice ps :: rest => ps ++ flattenArgs rest

/-- Number of question-mark placeholders in a statement text. -/
def qMarks : List Char → Nat
  | [] => 0
  | c :: rest => (if c = '?' then 1 else 0) + qMarks rest

/-- Comma-separated run of n question marks, the expansion of one slice
argument of length n. -/
def inPlaceholders : Nat → List Char
  | 0 => []
  | 1 => ['?']
  | n + 2 => '?' :: ',' :: ' ' :: inPlaceholders (n + 1)

/-- Walks the statement text, replacing the i-th question mark with the
expansion of the i-th argument; fails when the counts disagree. -/
def expandQuery : List Char → List Arg → Option (List Char)
  | [], [] => some []
  | [], _ :: _ => none
  | c :: rest, as =>
    if c = '?' then
      match as with
      | [] => none
      | a :: as2 => (expandQuery rest as2).map (fun r => inPlaceholders a.boundLength ++ r)
    else (expandQuery rest as).map (fun r => c :: r)

/-- Modelled from the spec: the backend interface provides a mechanism to
expand a variable-length list into bound IN parameters (the sqlx.In helper,
whose code is outside this repository).  It rejects empty slices and
placeholder or argument count mismatches; otherwise it returns the expanded
statement text together with the flattened bound-parameter list. -/
def sqlxIn (query : String) (args : List Arg) : Except String (String × List Param) :=
  if args.any Arg.isEmptySliceArg then
    .error "empty slice passed to in query"
  else
    match expandQuery query.toList args with
    | none => .error "number of bindVars does not match arguments"
    | some cs => .ok (⟨cs⟩, flattenArgs args)

/-- Name under which this backend plugin registers (its dialect). -/
def PluginName : String := "postgres"

/-- Modelled from the spec: the dialect lookup of the rebind helper; the
postgres dialect uses dollar placeholders (encoded 1), anything else keeps
question marks (encoded 0). -/
def sqlxBindType (driverName : String) : Nat :=
  if driverName = "postgres" then 1 else 0

/-- Rewrites the n-th question mark to a dollar placeholder numbered n + 1. -/
def rebindChars : List Char → Nat → List Char
  | [], _ => []
  | c :: rest, n =>
    if c = '?' then ('$' :: (toString (n + 1)).toList) ++ rebindChars rest (n + 1)
    else c :: rebindChars rest n

/-- Modelled from the spec: the dialect rebind helper (sqlx.Rebind, outside
this repository) rewriting question-mark placeholders into the dialect's
numbered form. -/
def sqlxRebind (bindType : Nat) (query : String) : String :=
  if bindType = 1 then ⟨rebindChars query.toList 0⟩ else query

/-- Modelled from the spec: backend timestamp normalization on write.
Timestamps are integer nanosecond counts; the backend representation keeps
microsecond precision, so the write conversion truncates to a whole number
of microseconds. -/
def toPostgresDateTime (t : Int) : Int := t / 1000 * 1000

/-- Modelled from the spec: denormalization of a backend timestamp back to
the canonical in-memory representation on read. -/
def fromPostgresDateTime (t : Int) : Int := t

/-- Modelled from the spec: a row of activity_info_maps as the sqlplugin
interface exposes it — the execution identity, the schedule_id map key, and
the four value columns of the source registry. -/
structure ActivityInfoMapsRow where
  shardID : Int
  domainID : String
  workflowID : String
  runID : String
  scheduleID : Int
  data : List Nat
  dataEncoding : String
  lastHeartbeatDetails : List Nat
  lastHeartbeatUpdatedTime : Int
deriving DecidableEq, Repr

/-- Modelled from the spec: a row of the four payload-only map kinds (timer,
child-execution, request-cancel, signal info) — execution identity, the
kind's map key, and the value payload with its encoding tag. -/
structure PayloadRow (K : Type) where
  shardID : Int
  domainID : String
  workflowID : String
  runID : String
  mapKey : K
  data : List Nat
  dataEncoding : String
deriving DecidableEq, Repr

abbrev TimerInfoMapsRow := PayloadRow String

abbrev ChildExecutionInfoMapsRow := PayloadRow Int

abbrev RequestCancelInfoMapsRow := PayloadRow Int

abbrev SignalInfoMapsRow := PayloadRow Int

/-- Modelled from the spec: a row of the signals_requested_sets id set —
execution identity plus the signal_id, with no payload. -/
structure SignalsRequestedSetsRow where
  shardID : Int
  domainID : String
  workflowID : String
  runID : String
  signalID : String
deriving DecidableEq, Repr

/-- Modelled from the spec: the filter of a Select or Delete call — the
execution identity plus the optional key list of the kind. -/
structure MapsFilter (K : Type) where
  shardID : Int
  domainID : String
  workflowID : String
  runID : String
  keys : List K
deriving DecidableEq, Repr

abbrev ActivityInfoMapsFilter := MapsFilter Int

abbrev TimerInfoMapsFilter := MapsFilter String

abbrev ChildExecutionInfoMapsFilter := MapsFilter Int

abbrev RequestCancelInfoMapsFilter := MapsFilter Int

abbrev SignalInfoMapsFilter := MapsFilter Int

abbrev SignalsRequestedSetsFilter := MapsFilter String

/-- The four execution-identity parameters, in the order the source binds
them. -/
def identityParams (shardID : Int) (domainID workflowID runID : String) : List Param :=
  [.int shardID, .str domainID, .str workflowID, .str runID]

/-- The four execution-identity arguments of a filter, in the order the
source passes them to the expansion helper. -/
def MapsFilter.identityArgs {K : Type} (f : MapsFilter K) : List Arg :=
  [.scalar (.int f.shardID), .scalar (.str f.domainID),
   .scalar (.str f.workflowID), .scalar (.str f.runID)]

/-- Outcome of a Replace or Insert call: the caller-visible row slice after
the call (the source may mutate it in place), the named statement executed
with its bound rows (none when the call short-circuits), and the returned
error. -/
structure ReplaceOutcome (R : Type) where
  callerRows : List R
  stmt : Option (String × List R)
  err : Option String
deriving DecidableEq, Repr

/-- Outcome of a Delete call: the statements executed with their bound
parameters, and the returned error. -/
structure DeleteOutcome where
  stmts : List (String × List Param)
  err : Option String
deriving DecidableEq, Repr

/-- Replaces rows in activity_info_maps: short-circuits on an empty slice,
otherwise converts every last-heartbeat timestamp in place and executes the
upsert statement over the mutated rows. -/
def ReplaceIntoActivityInfoMaps (rows : List ActivityInfoMapsRow) :
    ReplaceOutcome ActivityInfoMapsRow :=
  if rows.length = 0 then { callerRows := rows, stmt := none, err := none }
  else
    let converted := rows.map fun r =>
      { r with lastHeartbeatUpdatedTime := toPostgresDateTime r.lastHeartbeatUpdatedTime }
    { callerRows := converted, stmt := some (setKeyInActivityInfoMapQry, converted), err := none }

/-- Shared shape of the payload-kind Replace operations: short-circuit on an
empty slice, otherwise execute the kind's upsert statement over the rows. -/
def replaceIntoPayloadMaps {K : Type} (query : String) (rows : List (PayloadRow K)) :
    ReplaceOutcome (PayloadRow K) :=
  if rows.length = 0 then { callerRows := rows, stmt := none, err := none }
  else { callerRows := rows, stmt := some (query, rows), err := none }

def ReplaceIntoTimerInfoMaps (rows : List TimerInfoMapsRow) : ReplaceOutcome TimerInfoMapsRow :=
  replaceIntoPayloadMaps setKeyInTimerInfoMapSQLQuery rows

def ReplaceIntoChildExecutionInfoMaps (rows : List ChildExecutionInfoMapsRow) :
    ReplaceOutcome ChildExecutionInfoMapsRow :=
  replaceIntoPayloadMaps setKeyInChildExecutionInfoMapQry rows

def ReplaceIntoRequestCancelInfoMaps (rows : List RequestCancelInfoMapsRow) :
    ReplaceOutcome RequestCancelInfoMapsRow :=
  replaceIntoPayloadMaps setKeyInRequestCancelInfoMapQry rows

def ReplaceIntoSignalInfoMaps (rows : List SignalInfoMapsRow) : ReplaceOutcome SignalInfoMapsRow :=
  replaceIntoPayloadMaps setKeyInSignalInfoMapQry rows

/-- Inserts rows into signals_requested_sets: short-circuits on an empty
slice, otherwise executes the insert-ignore statement over the rows. -/
def InsertIntoSignalsRequestedSets (rows : List SignalsRequestedSetsRow) :
    ReplaceOutcome SignalsRequestedSetsRow :=
  if rows.length = 0 then { callerRows := rows, stmt := none, err := none }
  else { callerRows := rows, stmt := some (createSignalsRequestedSetQuery, rows), err := none }

/-- Reads activity_info_maps rows: for every row the backend returned, the
identity columns are overwritten with the filter's values and the
last-heartbeat timestamp is denormalized. -/
def SelectFromActivityInfoMaps (filter : ActivityInfoMapsFilter)
    (fetched : List ActivityInfoMapsRow) : List ActivityInfoMapsRow :=
  fetched.map fun row =>
    { row with
        shardID := filter.shardID
        domainID := filter.domainID
        workflowID := filter.workflowID
        runID := filter.runID
        lastHeartbeatUpdatedTime := fromPostgresDateTime row.lastHeartbeatUpdatedTime }

/-- Shared shape of the payload-kind Select operations: every returned row
gets its identity columns overwritten with the filter's values. -/
def selectFromPayloadMaps {K : Type} (filter : MapsFilter K)
    (fetched : List (PayloadRow K)) : List (PayloadRow K) :=
  fetched.map fun row =>
    { row with
        shardID := filter.shardID
        domainID := filter.domainID
        workflowID := filter.workflowID
        runID := filter.runID }

def SelectFromTimerInfoMaps (filter : TimerInfoMapsFilter)
    (fetched : List TimerInfoMapsRow) : List TimerInfoMapsRow :=
  selectFromPayloadMaps filter fetched

def SelectFromChildExecutionInfoMaps (filter : ChildExecutionInfoMapsFilter)
    (fetched : List ChildExecutionInfoMapsRow) : List ChildExecutionInfoMapsRow :=
  selectFromPayloadMaps filter fetched

def SelectFromRequestCancelInfoMaps (filter : RequestCancelInfoMapsFilter)
    (fetched : List RequestCancelInfoMapsRow) : List RequestCancelInfoMapsRow :=
  selectFromPayloadMaps filter fetched

def SelectFromSignalInfoMaps (filter : SignalInfoMapsFilter)
    (fetched : List SignalInfoMapsRow) : List SignalInfoMapsRow :=
  selectFromPayloadMaps filter fetched

/-- Reads signals_requested_sets rows: every returned row gets its identity
columns overwritten with the filter's values. -/
def SelectFromSignalsRequestedSets (filter : SignalsRequestedSetsFilter)
    (fetched : List SignalsRequestedSetsRow) : List SignalsRequestedSetsRow :=
  fetched.map fun row =>
    { row with
        shardID := filter.shardID
        domainID := filter.domainID
        workflowID := filter.workflowID
        runID := filter.runID }

/-- Shared shape of the Delete operations: with a non-empty key list, expand
the delete-by-key-set statement through the IN helper (propagating an
expansion failure with no statement executed) and execute it after the
dialect rebind; with no keys, execute the delete-all statement over the four
identity parameters. -/
def deleteFromMaps {K : Type} (deleteByKeysQry deleteAllQry : String)
    (toParam : K → Param) (filter : MapsFilter K) : DeleteOutcome :=
  if 0 < filter.keys.length then
    match sqlxIn deleteByKeysQry (filter.identityArgs ++ [Arg.slice (filter.keys.map toParam)]) with
    | .error e => { stmts := [], err := some e }
    | .ok (query, args) =>
        { stmts := [(sqlxRebind (sqlxBindType PluginName) query, args)], err := none }
  else
    { stmts := [(deleteAllQry,
        identityParams filter.shardID filter.domainID filter.workflowID filter.runID)],
      err := none }

def DeleteFromActivityInfoMaps (filter : ActivityInfoMapsFilter) : DeleteOutcome :=
  deleteFromMaps deleteKeyInActivityInfoMapQry deleteActivityInfoMapQry Param.int filter

def DeleteFromTimerInfoMaps (filter : TimerInfoMapsFilter) : DeleteOutcome :=
  deleteFromMaps deleteKeyInTimerInfoMapSQLQuery deleteTimerInfoMapSQLQuery Param.str filter

def DeleteFromChildExecutionInfoMaps (filter : ChildExecutionInfoMapsFilter) : DeleteOutcome :=
  deleteFromMaps deleteKeyInChildExecutionInfoMapQry deleteChildExecutionInfoMapQry Param.int filter

def DeleteFromRequestCancelInfoMaps (filter : RequestCancelInfoMapsFilter) : DeleteOutcome :=
  deleteFromMaps deleteKeyInRequestCancelInfoMapQry deleteRequestCancelInfoMapQry Param.int filter

def DeleteFromSignalInfoMaps (filter : SignalInfoMapsFilter) : DeleteOutcome :=
  deleteFromMaps deleteKeyInSignalInfoMapQry deleteSignalInfoMapQry Param.int filter

def DeleteFromSignalsRequestedSets (filter : SignalsRequestedSetsFilter) : DeleteOutcome :=
  deleteFromMaps deleteSignalsRequestedSetQuery deleteAllSignalsRequestedSetQuery Param.str filter

/-- Modelled from the spec: the deterministic shard router mapping a logical
shard id and the configured total physical shard count to a physical shard
index.  The operations compute it to pick a connection; it affects neither
statement text nor bound parameters nor table contents, so the operation
embeddings above do not thread it. -/
def GetDBShardIDFromHistoryShardID (historyShardID : Int) (totalNumDBShards : Nat) : Int :=
  if totalNumDBShards = 0 then 0 else historyShardID % (totalNumDBShards : Int)

/-- Execution identity of an activity-info row. -/
def ActivityInfoMapsRow.ident (r : ActivityInfoMapsRow) : Int × String × String × String :=
  (r.shardID, r.domainID, r.workflowID, r.runID)

/-- Primary key of an activity-info row: execution identity plus the
schedule_id map key. -/
def ActivityInfoMapsRow.pk (r : ActivityInfoMapsRow) : Int × String × String × String × Int :=
  (r.shardID, r.domainID, r.workflowID, r.runID, r.scheduleID)

/-- Execution identity of a payload row. -/
def PayloadRow.ident {K : Type} (r : PayloadRow K) : Int × String × String × String :=
  (r.shardID, r.domainID, r.workflowID, r.runID)

/-- Primary key of a payload row: execution identity plus the map key. -/
def PayloadRow.pk {K : Type} (r : PayloadRow K) : Int × String × String × String × K :=
  (r.shardID, r.domainID, r.workflowID, r.runID, r.mapKey)

/-- Execution identity of a signals-requested row. -/
def SignalsRequestedSetsRow.ident (r : SignalsRequestedSetsRow) : Int × String × String × String :=
  (r.shardID, r.domainID, r.workflowID, r.runID)

/-- Primary key of a signals-requested row: execution identity plus the
signal_id. -/
def SignalsRequestedSetsRow.pk (r : SignalsRequestedSetsRow) :
    Int × String × String × String × String :=
  (r.shardID, r.domainID, r.workflowID, r.runID, r.signalID)

/-- Execution identity carried by a filter. -/
def MapsFilter.ident {K : Type} (f : MapsFilter K) : Int × String × String × String :=
  (f.shardID, f.domainID, f.workflowID, f.runID)

/-- Assignment of one named column of an activity-info row from the incoming
(excluded) row, the meaning of one column of the upsert SET clause. -/
def setActivityCol (x incoming : ActivityInfoMapsRow) (c : String) : ActivityInfoMapsRow :=
  if c = "shard_id" then { x with shardID := incoming.shardID }
  else if c = "domain_id" then { x with domainID := incoming.domainID }
  else if c = "workflow_id" then { x with workflowID := incoming.workflowID }
  else if c = "run_id" then { x with runID := incoming.runID }
  else if c = "schedule_id" then { x with scheduleID := incoming.scheduleID }
  else if c = "data" then { x with data := incoming.data }
  else if c = "data_encoding" then { x with dataEncoding := incoming.dataEncoding }
  else if c = "last_heartbeat_details" then { x with lastHeartbeatDetails := incoming.lastHeartbeatDetails }
  else if c = "last_heartbeat_updated_time" then { x with lastHeartbeatUpdatedTime := incoming.lastHeartbeatUpdatedTime }
  else x

/-- Columnwise assignment over a SET-clause column list. -/
def updateActivityColumns (cols : List String) (old incoming : ActivityInfoMapsRow) :
    ActivityInfoMapsRow :=
  cols.foldl (fun acc c => setActivityCol acc incoming c) old

/-- Column list of the SET clause the generated activity upsert statement
carries: the full primary key followed by the registry's value columns. -/
def activitySetColumns : List String :=
  ["shard_id", "domain_id", "workflow_id", "run_id", activityInfoKey] ++ activityInfoColumns

/-- Modelled from the spec: backend meaning of the generated activity upsert
statement for one bound row — insert, and on primary-key conflict assign
the SET-clause columns from the incoming row. -/
def upsertActivityRow (r : ActivityInfoMapsRow) (t : List ActivityInfoMapsRow) :
    List ActivityInfoMapsRow :=
  if t.any (fun x => decide (x.pk = r.pk)) then
    t.map fun x => if x.pk = r.pk then updateActivityColumns activitySetColumns x r else x
  else t ++ [r]

/-- Backend meaning of an executed activity Replace statement: the bound
rows are upserted in order; no statement leaves the table unchanged. -/
def applyActivityReplace (stmt : Option (String × List ActivityInfoMapsRow))
    (t : List ActivityInfoMapsRow) : List ActivityInfoMapsRow :=
  match stmt with
  | none => t
  | some (_, rows) => rows.foldl (fun acc r => upsertActivityRow r acc) t

/-- Modelled from the spec: backend meaning of the activity select-all
statement — the rows whose identity columns equal the four bound identity
parameters. -/
def activitySelectSem (i : Int × String × String × String) (t : List ActivityInfoMapsRow) :
    List ActivityInfoMapsRow :=
  t.filter fun r => decide (r.ident = i)

/-- Modelled from the spec: backend meaning of the activity delete-all
statement — removes exactly the rows whose identity columns equal the four
bound identity parameters. -/
def activityDeleteAllSem (i : Int × String × String × String) (t : List ActivityInfoMapsRow) :
    List ActivityInfoMapsRow :=
  t.filter fun r => !decide (r.ident = i)

/-- Modelled from the spec: backend meaning of the activity
delete-by-key-set statement — removes exactly the rows whose identity
columns equal the bound identity parameters and whose schedule_id is among
the bound keys. -/
def activityDeleteKeysSem (i : Int × String × String × String) (ks : List Int)
    (t : List ActivityInfoMapsRow) : List ActivityInfoMapsRow :=
  t.filter fun r => !(decide (r.ident = i) && decide (r.scheduleID ∈ ks))

/-- Assignment of one named column of a payload row from the incoming
(excluded) row, the meaning of one column of the upsert SET clause; the
kind's key column name maps to the map-key field. -/
def setPayloadCol {K : Type} (x incoming : PayloadRow K) (keyName c : String) : PayloadRow K :=
  if c = "shard_id" then { x with shardID := incoming.shardID }
  else if c = "domain_id" then { x with domainID := incoming.domainID }
  else if c = "workflow_id" then { x with workflowID := incoming.workflowID }
  else if c = "run_id" then { x with runID := incoming.runID }
  else if c = keyName then { x with mapKey := incoming.mapKey }
  else if c = "data" then { x with data := incoming.data }
  else if c = "data_encoding" then { x with dataEncoding := incoming.dataEncoding }
  else x

/-- Columnwise assignment over a SET-clause column list for payload rows. -/
def updatePayloadColumns {K : Type} (cols : List String) (keyName : String)
    (old incoming : PayloadRow K) : PayloadRow K :=
  cols.foldl (fun acc c => setPayloadCol acc incoming keyName c) old

/-- Column list of the SET clause a generated payload-kind upsert statement
carries: the full primary key followed by the kind's value columns. -/
def payloadSetColumns (keyName : String) (valueColumns : List String) : List String :=
  ["shard_id", "domain_id", "workflow_id", "run_id", keyName] ++ valueColumns

/-- Modelled from the spec: backend meaning of a generated payload-kind
upsert statement for one bound row — insert, and on primary-key conflict
assign the SET-clause columns from the incoming row. -/
def upsertPayloadRow {K : Type} [DecidableEq K] (keyName : String) (valueColumns : List String)
    (r : PayloadRow K) (t : List (PayloadRow K)) : List (PayloadRow K) :=
  if t.any (fun x => decide (x.pk = r.pk)) then
    t.map fun x =>
      if x.pk = r.pk then updatePayloadColumns (payloadSetColumns keyName valueColumns) keyName x r
      else x
  else t ++ [r]

/-- Backend meaning of an executed payload-kind Replace statement: the bound
rows are upserted in order; no statement leaves the table unchanged. -/
def applyPayloadReplace {K : Type} [DecidableEq K] (keyName : String) (valueColumns : List String)
    (stmt : Option (String × List (PayloadRow K))) (t : List (PayloadRow K)) :
    List (PayloadRow K) :=
  match stmt with
  | none => t
  | some (_, rows) => rows.foldl (fun acc r => upsertPayloadRow keyName valueColumns r acc) t

/-- Modelled from the spec: backend meaning of a payload-kind select-all
statement. -/
def payloadSelectSem {K : Type} (i : Int × String × String × String) (t : List (PayloadRow K)) :
    List (PayloadRow K) :=
  t.filter fun r => decide (r.ident = i)

/-- Modelled from the spec: backend meaning of a payload-kind delete-all
statement. -/
def payloadDeleteAllSem {K : Type} (i : Int × String × String × String) (t : List (PayloadRow K)) :
    List (PayloadRow K) :=
  t.filter fun r => !decide (r.ident = i)

/-- Modelled from the spec: backend meaning of a payload-kind
delete-by-key-set statement. -/
def payloadDeleteKeysSem {K : Type} [DecidableEq K] (i : Int × String × String × String)
    (ks : List K) (t : List (PayloadRow K)) : List (PayloadRow K) :=
  t.filter fun r => !(decide (r.ident = i) && decide (r.mapKey ∈ ks))

/-- Modelled from the spec: backend meaning of the signals-requested insert
statement for one bound row — insert, and on primary-key conflict do
nothing. -/
def insertSignalRowIgnore (r : SignalsRequestedSetsRow) (t : List SignalsRequestedSetsRow) :
    List SignalsRequestedSetsRow :=
  if t.any (fun x => decide (x.pk = r.pk)) then t else t ++ [r]

/-- Backend meaning of an executed signals-requested insert statement: the
bound rows are inserted in order, conflicts ignored. -/
def applySignalsInsert (stmt : Option (String × List SignalsRequestedSetsRow))
    (t : List SignalsRequestedSetsRow) : List SignalsRequestedSetsRow :=
  match stmt with
  | none => t
  | some (_, rows) => rows.foldl (fun acc r => insertSignalRowIgnore r acc) t

/-- Modelled from the spec: backend meaning of the signals-requested select
statement. -/
def signalsSelectSem (i : Int × String × String × String) (t : List SignalsRequestedSetsRow) :
    List SignalsRequestedSetsRow :=
  t.filter fun r => decide (r.ident = i)

/-- Modelled from the spec: backend meaning of the signals-requested
delete-all statement. -/
def signalsDeleteAllSem (i : Int × String × String × String) (t : List SignalsRequestedSetsRow) :
    List SignalsRequestedSetsRow :=
  t.filter fun r => !decide (r.ident = i)

/-- Modelled from the spec: backend meaning of the signals-requested
delete-by-key-set statement. -/
def signalsDeleteKeysSem (i : Int × String × String × String) (ks : List String)
    (t : List SignalsRequestedSetsRow) : List SignalsRequestedSetsRow :=
  t.filter fun r => !(decide (r.ident = i) && decide (r.signalID ∈ ks))

set_option maxRecDepth 10000

/-- Assigning every column of the activity SET clause from the incoming row
yields exactly the incoming row. -/
theorem updateActivityColumns_full (old incoming : ActivityInfoMapsRow) :
    updateActivityColumns activitySetColumns old incoming = incoming := by
  simp [updateActivityColumns, activitySetColumns, activityInfoKey, activityInfoColumns,
    setActivityCol]

/-- Assigning every column of a timer-keyed SET clause from the incoming row
yields exactly the incoming row. -/
theorem updatePayloadColumns_timer {K : Type} (old incoming : PayloadRow K) :
    updatePayloadColumns (payloadSetColumns "timer_id" ["data", "data_encoding"])
      "timer_id" old incoming = incoming := by
  simp [updatePayloadColumns, payloadSetColumns, setPayloadCol]

/-- Assigning every column of an initiated-keyed SET clause from the
incoming row yields exactly the incoming row. -/
theorem updatePayloadColumns_initiated {K : Type} (old incoming : PayloadRow K) :
    updatePayloadColumns (payloadSetColumns "initiated_id" ["data", "data_encoding"])
      "initiated_id" old incoming = incoming := by
  simp [updatePayloadColumns, payloadSetColumns, setPayloadCol]

/-- The upserted row is present after an activity upsert. -/
theorem upsertActivityRow_self_mem (r : ActivityInfoMapsRow) (t : List ActivityInfoMapsRow) :
    r ∈ upsertActivityRow r t := by
  unfold upsertActivityRow
  by_cases h : t.any (fun x => decide (x.pk = r.pk)) = true
  · rw [if_pos h]
    rw [List.any_eq_true] at h
    obtain ⟨x, hx, hpk⟩ := h
    rw [decide_eq_true_iff] at hpk
    exact List.mem_map.mpr ⟨x, hx, by rw [if_pos hpk, updateActivityColumns_full]⟩
  · rw [if_neg h]
    exact List.mem_append_right t (List.mem_singleton.mpr rfl)

/-- Every row present after an activity upsert is the upserted row itself or
a pre-existing row with a different primary key. -/
theorem upsertActivityRow_cases (r y : ActivityInfoMapsRow) (t : List ActivityInfoMapsRow)
    (hy : y ∈ upsertActivityRow r t) : y = r ∨ (y ∈ t ∧ y.pk ≠ r.pk) := by
  unfold upsertActivityRow at hy
  by_cases h : t.any (fun x => decide (x.pk = r.pk)) = true
  · rw [if_pos h] at hy
    obtain ⟨x, hx, hfx⟩ := List.mem_map.mp hy
    by_cases hpk : x.pk = r.pk
    · left
      rw [if_pos hpk, updateActivityColumns_full] at hfx
      exact hfx.symm
    · right
      rw [if_neg hpk] at hfx
      exact hfx ▸ ⟨hx, hpk⟩
  · rw [if_neg h] at hy
    rcases List.mem_append.mp hy with hyt | hyr
    · right
      refine ⟨hyt, fun hpk => h ?_⟩
      exact List.any_eq_true.mpr ⟨y, hyt, decide_eq_true hpk⟩
    · left
      exact List.mem_singleton.mp hyr

/-- A pre-existing row with a different primary key survives an activity
upsert unchanged. -/
theorem upsertActivityRow_frame (r y : ActivityInfoMapsRow) (t : List ActivityInfoMapsRow)
    (hy : y ∈ t) (hpk : y.pk ≠ r.pk) : y ∈ upsertActivityRow r t := by
  unfold upsertActivityRow
  by_cases h : t.any (fun x => decide (x.pk = r.pk)) = true
  · rw [if_pos h]
    exact List.mem_map.mpr ⟨y, hy, by rw [if_neg hpk]⟩
  · rw [if_neg h]
    exact List.mem_append_left _ hy

/-- The payload upsert analogue of upsertActivityRow_self_mem, for any SET
column list that covers every column. -/
theorem upsertPayloadRow_self_mem {K : Type} [DecidableEq K] (kn : String) (vc : List String)
    (hupd : ∀ old incoming : PayloadRow K,
      updatePayloadColumns (payloadSetColumns kn vc) kn old incoming = incoming)
    (r : PayloadRow K) (t : List (PayloadRow K)) :
    r ∈ upsertPayloadRow kn vc r t := by
  unfold upsertPayloadRow
  by_cases h : t.any (fun x => decide (x.pk = r.pk)) = true
  · rw [if_pos h]
    rw [List.any_eq_true] at h
    obtain ⟨x, hx, hpk⟩ := h
    rw [decide_eq_true_iff] at hpk
    exact List.mem_map.mpr ⟨x, hx, by rw [if_pos hpk, hupd]⟩
  · rw [if_neg h]
    exact List.mem_append_right t (List.mem_singleton.mpr rfl)

/-- The payload upsert analogue of upsertActivityRow_cases. -/
theorem upsertPayloadRow_cases {K : Type} [DecidableEq K] (kn : String) (vc : List String)
    (hupd : ∀ old incoming : PayloadRow K,
      updatePayloadColumns (payloadSetColumns kn vc) kn old incoming = incoming)
    (r y : PayloadRow K) (t : List (PayloadRow K))
    (hy : y ∈ upsertPayloadRow kn vc r t) : y = r ∨ (y ∈ t ∧ y.pk ≠ r.pk) := by
  unfold upsertPayloadRow at hy
  by_cases h : t.any (fun x => decide (x.pk = r.pk)) = true
  · rw [if_pos h] at hy
    obtain ⟨x, hx, hfx⟩ := List.mem_map.mp hy
    by_cases hpk : x.pk = r.pk
    · left
      rw [if_pos hpk, hupd] at hfx
      exact hfx.symm
    · right
      rw [if_neg hpk] at hfx
      exact hfx ▸ ⟨hx, hpk⟩
  · rw [if_neg h] at hy
    rcases List.mem_append.mp hy with hyt | hyr
    · right
      refine ⟨hyt, fun hpk => h ?_⟩
      exact List.any_eq_true.mpr ⟨y, hyt, decide_eq_true hpk⟩
    · left
      exact List.mem_singleton.mp hyr

/-- The payload upsert analogue of upsertActivityRow_frame. -/
theorem upsertPayloadRow_frame {K : Type} [DecidableEq K] (kn : String) (vc : List String)
    (r y : PayloadRow K) (t : List (PayloadRow K))
    (hy : y ∈ t) (hpk : y.pk ≠ r.pk) : y ∈ upsertPayloadRow kn vc r t := by
  unfold upsertPayloadRow
  by_cases h : t.any (fun x => decide (x.pk = r.pk)) = true
  · rw [if_pos h]
    exact List.mem_map.mpr ⟨y, hy, by rw [if_neg hpk]⟩
  · rw [if_neg h]
    exact List.mem_append_left _ hy

/-- The expansion walk succeeds exactly when the placeholder count matches
the argument count. -/
theorem expandQuery_isSome_iff : ∀ (cs : List Char) (as : List Arg),
    (expandQuery cs as).isSome = true ↔ qMarks cs = as.length := by
  intro cs
  induction cs with
  | nil =>
    intro as
    cases as <;> simp [expandQuery, qMarks]
  | cons c rest ih =>
    intro as
    by_cases hc : c = '?'
    · subst hc
      cases as with
      | nil =>
        simp only [expandQuery, qMarks, List.length_nil]
        simp
      | cons a as2 =>
        have h2 := ih as2
        simp only [expandQuery, qMarks, List.length_cons]
        simp [Option.isSome_map, h2]
        omega
    · cases as with
      | nil =>
        have h2 := ih ([] : List Arg)
        simp only [expandQuery, qMarks, List.length_nil]
        rw [if_neg hc]
        simp [Option.isSome_map, h2, hc]
      | cons a as2 =>
        have h2 := ih (a :: as2)
        simp only [expandQuery, qMarks, List.length_cons]
        rw [if_neg hc]
        simp [Option.isSome_map, h2, hc]

/-- When placeholder and argument counts match and no slice is empty, the
expansion helper succeeds and binds exactly the flattened arguments. -/
theorem sqlxIn_ok_of (query : String) (args : List Arg)
    (hq : qMarks query.toList = args.length)
    (he : args.any Arg.isEmptySliceArg = false) :
    ∃ q, sqlxIn query args = .ok (q, flattenArgs args) := by
  have h := (expandQuery_isSome_iff query.toList args).mpr hq
  obtain ⟨cs, hcs⟩ := Option.isSome_iff_exists.mp h
  refine ⟨⟨cs⟩, ?_⟩
  unfold sqlxIn
  rw [if_neg (by simp [he]), hcs]

/-- Flattening the identity arguments followed by one slice yields the four
identity parameters followed by the slice contents. -/
theorem flattenArgs_identity_slice {K : Type} (f : MapsFilter K) (ps : List Param) :
    flattenArgs (f.identityArgs ++ [Arg.slice ps]) =
      identityParams f.shardID f.domainID f.workflowID f.runID ++ ps := by
  simp [MapsFilter.identityArgs, identityParams, flattenArgs]

/-- Characterization of a keyed delete: with a non-empty key list and a
statement text carrying five placeholders, the operation executes exactly
one statement bound to the four identity parameters followed by one
parameter per key, and returns no error. -/
theorem deleteFromMaps_keys {K : Type} (qk qa : String) (tp : K → Param) (f : MapsFilter K)
    (hk : 0 < f.keys.length) (hq : qMarks qk.toList = 5) :
    ∃ q, deleteFromMaps qk qa tp f =
      { stmts := [(q, identityParams f.shardID f.domainID f.workflowID f.runID ++
          f.keys.map tp)], err := none } := by
  have hne : (f.keys.map tp).isEmpty = false := by
    cases hks : f.keys with
    | nil => rw [hks] at hk; simp at hk
    | cons k ks => simp [hks]
  have he : (f.identityArgs ++ [Arg.slice (f.keys.map tp)]).any Arg.isEmptySliceArg = false := by
    simp [MapsFilter.identityArgs, Arg.isEmptySliceArg, hne]
  have hlen : (f.identityArgs ++ [Arg.slice (f.keys.map tp)]).length = 5 := by
    simp [MapsFilter.identityArgs]
  obtain ⟨q, hok⟩ := sqlxIn_ok_of qk (f.identityArgs ++ [Arg.slice (f.keys.map tp)])
    (by rw [hq, hlen]) he
  refine ⟨sqlxRebind (sqlxBindType PluginName) q, ?_⟩
  rw [deleteFromMaps, if_pos hk, hok, flattenArgs_identity_slice]

/-- Characterization of an empty-key delete: the operation executes exactly
the delete-all statement over the four identity parameters, and returns no
error. -/
theorem deleteFromMaps_nokeys {K : Type} (qk qa : String) (tp : K → Param) (f : MapsFilter K)
    (hk : f.keys.length = 0) :
    deleteFromMaps qk qa tp f =
      { stmts := [(qa, identityParams f.shardID f.domainID f.workflowID f.runID)],
        err := none } := by
  rw [deleteFromMaps, if_neg (by omega)]

/-- Reading an in-range position of a mapped list applies the function to
the corresponding position of the original list, for any defaults. -/
theorem getD_map_lt {α β : Type} (g : α → β) :
    ∀ (l : List α) (i : Nat), i < l.length → ∀ (d : α) (d2 : β),
      (l.map g).getD i d2 = g (l.getD i d) := by
  intro l
  induction l with
  | nil => intro i h; simp at h
  | cons a l ih =>
    intro i h d d2
    cases i with
    | zero => rfl
    | succ j =>
      simp only [List.map_cons, List.getD_cons_succ]
      exact ih j (by simpa using h) d d2

/-- C2: for every collection kind, a Delete with a non-empty key list
executes the delete-by-key-set statement with the IN clause expanded so the
bound parameters are exactly the four execution-identity parameters followed
by one parameter per key (hence 4 + number-of-keys parameters), and with no
keys it executes the delete-all statement over the execution identity. -/
theorem c2_delete_keyset_parameter_expansion (sid : Int) (dom wf run : String)
    (iks : List Int) (sks : List String) (hik : 0 < iks.length) (hsk : 0 < sks.length) :
    (∃ q, DeleteFromActivityInfoMaps ⟨sid, dom, wf, run, iks⟩ =
      { stmts := [(q, identityParams sid dom wf run ++ iks.map Param.int)], err := none }) ∧
    (∃ q, DeleteFromTimerInfoMaps ⟨sid, dom, wf, run, sks⟩ =
      { stmts := [(q, identityParams sid dom wf run ++ sks.map Param.str)], err := none }) ∧
    (∃ q, DeleteFromChildExecutionInfoMaps ⟨sid, dom, wf, run, iks⟩ =
      { stmts := [(q, identityParams sid dom wf run ++ iks.map Param.int)], err := none }) ∧
    (∃ q, DeleteFromRequestCancelInfoMaps ⟨sid, dom, wf, run, iks⟩ =
      { stmts := [(q, identityParams sid dom wf run ++ iks.map Param.int)], err := none }) ∧
    (∃ q, DeleteFromSignalInfoMaps ⟨sid, dom, wf, run, iks⟩ =
      { stmts := [(q, identityParams sid dom wf run ++ iks.map Param.int)], err := none }) ∧
    (∃ q, DeleteFromSignalsRequestedSets ⟨sid, dom, wf, run, sks⟩ =
      { stmts := [(q, identityParams sid dom wf run ++ sks.map Param.str)], err := none }) ∧
    (identityParams sid dom wf run ++ iks.map Param.int).length = 4 + iks.length ∧
    (identityParams sid dom wf run ++ sks.map Param.str).length = 4 + sks.length ∧
    DeleteFromActivityInfoMaps ⟨sid, dom, wf, run, []⟩ =
      { stmts := [(deleteActivityInfoMapQry, identityParams sid dom wf run)], err := none } ∧
    DeleteFromTimerInfoMaps ⟨sid, dom, wf, run, []⟩ =
      { stmts := [(deleteTimerInfoMapSQLQuery, identityParams sid dom wf run)], err := none } ∧
    DeleteFromChildExecutionInfoMaps ⟨sid, dom, wf, run, []⟩ =
      { stmts := [(deleteChildExecutionInfoMapQry, identityParams sid dom wf run)], err := none } ∧
    DeleteFromRequestCancelInfoMaps ⟨sid, dom, wf, run, []⟩ =
      { stmts := [(deleteRequestCancelInfoMapQry, identityParams sid dom wf run)], err := none } ∧
    DeleteFromSignalInfoMaps ⟨sid, dom, wf, run, []⟩ =
      { stmts := [(deleteSignalInfoMapQry, identityParams sid dom wf run)], err := none } ∧
    DeleteFromSignalsRequestedSets ⟨sid, dom, wf, run, []⟩ =
      { stmts := [(deleteAllSignalsRequestedSetQuery, identityParams sid dom wf run)],
        err := none } := by
  refine ⟨deleteFromMaps_keys _ _ _ _ hik (by decide),
    deleteFromMaps_keys _ _ _ _ hsk (by decide),
    deleteFromMaps_keys _ _ _ _ hik (by decide),
    deleteFromMaps_keys _ _ _ _ hik (by decide),
    deleteFromMaps_keys _ _ _ _ hik (by decide),
    deleteFromMaps_keys _ _ _ _ hsk (by decide),
    by simp [identityParams]; omega,
    by simp [identityParams]; omega,
    rfl, rfl, rfl, rfl, rfl, rfl⟩

/-- C2 witness: the activity-kind conjunct at a concrete filter with one
key. -/
theorem c2_witness :
    ∃ q, DeleteFromActivityInfoMaps ⟨1, "d", "w", "r", [5]⟩ =
      { stmts := [(q, identityParams 1 "d" "w" "r" ++ [5].map Param.int)], err := none } :=
  (c2_delete_keyset_parameter_expansion 1 "d" "w" "r" [5] ["s"]
    (by decide) (by decide)).1

/-- C3 counterexample: with a zero-length key list the timer-kind Delete
does not short-circuit — it executes the delete-all statement, whose
backend meaning removes every row of the execution, so a statement is
issued and stored state can change. -/
theorem c3_counterexample_empty_keys_executes_delete_all :
    DeleteFromTimerInfoMaps ⟨1, "d", "w", "r", []⟩ =
      { stmts := [(deleteTimerInfoMapSQLQuery, identityParams 1 "d" "w" "r")], err := none } ∧
    (DeleteFromTimerInfoMaps ⟨1, "d", "w", "r", []⟩).stmts ≠ [] ∧
    payloadDeleteAllSem (1, "d", "w", "r")
      [(⟨1, "d", "w", "r", "t1", [0], "enc"⟩ : TimerInfoMapsRow)] = [] :=
  ⟨rfl, by decide, rfl⟩

/-- C3 amended: for every collection kind, a Delete with a zero-length key
list is not a no-op — it falls back to executing the delete-all statement
for the execution identity, and returns no error. -/
theorem c3_amended_empty_keys_fall_back_to_delete_all (sid : Int) (dom wf run : String) :
    DeleteFromActivityInfoMaps ⟨sid, dom, wf, run, []⟩ =
      { stmts := [(deleteActivityInfoMapQry, identityParams sid dom wf run)], err := none } ∧
    DeleteFromTimerInfoMaps ⟨sid, dom, wf, run, []⟩ =
      { stmts := [(deleteTimerInfoMapSQLQuery, identityParams sid dom wf run)], err := none } ∧
    DeleteFromChildExecutionInfoMaps ⟨sid, dom, wf, run, []⟩ =
      { stmts := [(deleteChildExecutionInfoMapQry, identityParams sid dom wf run)], err := none } ∧
    DeleteFromRequestCancelInfoMaps ⟨sid, dom, wf, run, []⟩ =
      { stmts := [(deleteRequestCancelInfoMapQry, identityParams sid dom wf run)], err := none } ∧
    DeleteFromSignalInfoMaps ⟨sid, dom, wf, run, []⟩ =
      { stmts := [(deleteSignalInfoMapQry, identityParams sid dom wf run)], err := none } ∧
    DeleteFromSignalsRequestedSets ⟨sid, dom, wf, run, []⟩ =
      { stmts := [(deleteAllSignalsRequestedSetQuery, identityParams sid dom wf run)],
        err := none } :=
  ⟨rfl, rfl, rfl, rfl, rfl, rfl⟩

/-- C4: for every collection kind, a Replace (or signals-requested Insert)
call with an empty rows sequence returns no error, executes no statement,
and its (absent) statement leaves any stored table unchanged. -/
theorem c4_replace_empty_rows_noop :
    ReplaceIntoActivityInfoMaps [] = { callerRows := [], stmt := none, err := none } ∧
    ReplaceIntoTimerInfoMaps [] = { callerRows := [], stmt := none, err := none } ∧
    ReplaceIntoChildExecutionInfoMaps [] = { callerRows := [], stmt := none, err := none } ∧
    ReplaceIntoRequestCancelInfoMaps [] = { callerRows := [], stmt := none, err := none } ∧
    ReplaceIntoSignalInfoMaps [] = { callerRows := [], stmt := none, err := none } ∧
    InsertIntoSignalsRequestedSets [] = { callerRows := [], stmt := none, err := none } ∧
    (∀ t : List ActivityInfoMapsRow,
      applyActivityReplace (ReplaceIntoActivityInfoMaps []).stmt t = t) ∧
    (∀ t : List TimerInfoMapsRow,
      applyPayloadReplace timerInfoKey timerInfoColumns
        (ReplaceIntoTimerInfoMaps []).stmt t = t) ∧
    (∀ t : List ChildExecutionInfoMapsRow,
      applyPayloadReplace childExecutionInfoKey childExecutionInfoColumns
        (ReplaceIntoChildExecutionInfoMaps []).stmt t = t) ∧
    (∀ t : List RequestCancelInfoMapsRow,
      applyPayloadReplace requestCancelInfoKey requestCancelInfoColumns
        (ReplaceIntoRequestCancelInfoMaps []).stmt t = t) ∧
    (∀ t : List SignalInfoMapsRow,
      applyPayloadReplace signalInfoKey signalInfoColumns
        (ReplaceIntoSignalInfoMaps []).stmt t = t) ∧
    (∀ t : List SignalsRequestedSetsRow,
      applySignalsInsert (InsertIntoSignalsRequestedSets []).stmt t = t) :=
  ⟨rfl, rfl, rfl, rfl, rfl, rfl, fun _ => rfl, fun _ => rfl, fun _ => rfl,
   fun _ => rfl, fun _ => rfl, fun _ => rfl⟩

/-- C6: an IN-clause expansion failure in the shared delete path is returned
to the caller with no statement executed, and every per-kind Delete is
exactly an instance of that shared path. -/
theorem c6_expansion_error_returned_no_statement :
    (∀ (K : Type) (qk qa : String) (tp : K → Param) (f : MapsFilter K) (e : String),
      0 < f.keys.length →
      sqlxIn qk (f.identityArgs ++ [Arg.slice (f.keys.map tp)]) = .error e →
      deleteFromMaps qk qa tp f = { stmts := [], err := some e }) ∧
    DeleteFromActivityInfoMaps =
      deleteFromMaps deleteKeyInActivityInfoMapQry deleteActivityInfoMapQry Param.int ∧
    DeleteFromTimerInfoMaps =
      deleteFromMaps deleteKeyInTimerInfoMapSQLQuery deleteTimerInfoMapSQLQuery Param.str ∧
    DeleteFromChildExecutionInfoMaps =
      deleteFromMaps deleteKeyInChildExecutionInfoMapQry deleteChildExecutionInfoMapQry
        Param.int ∧
    DeleteFromRequestCancelInfoMaps =
      deleteFromMaps deleteKeyInRequestCancelInfoMapQry deleteRequestCancelInfoMapQry
        Param.int ∧
    DeleteFromSignalInfoMaps =
      deleteFromMaps deleteKeyInSignalInfoMapQry deleteSignalInfoMapQry Param.int ∧
    DeleteFromSignalsRequestedSets =
      deleteFromMaps deleteSignalsRequestedSetQuery deleteAllSignalsRequestedSetQuery
        Param.str := by
  refine ⟨?_, rfl, rfl, rfl, rfl, rfl, rfl⟩
  intro K qk qa tp f e hk herr
  unfold deleteFromMaps
  rw [if_pos hk, herr]

/-- C6 witness: a statement text with no placeholders makes the expansion
helper fail, and the delete path then returns the error having executed
nothing. -/
theorem c6_witness :
    deleteFromMaps "no placeholders" "unused" Param.int
      ({ shardID := 1, domainID := "d", workflowID := "w", runID := "r",
         keys := [5] } : MapsFilter Int) =
      { stmts := [], err := some "number of bindVars does not match arguments" } :=
  c6_expansion_error_returned_no_statement.1 Int "no placeholders" "unused" Param.int
    ⟨1, "d", "w", "r", [5]⟩ "number of bindVars does not match arguments"
    (by decide) (by rfl)

/-- C1: for each of the five map kinds, the generated upsert statement
inserts a row over (shard_id, domain_id, workflow_id, run_id, key,
value-columns...) and on primary-key conflict assigns every column —
including every non-key column — from the incoming (excluded) row, so an
upsert of an already-present key fully replaces the prior row with no
partial-column merge. -/
theorem c1_upsert_full_row_replacement :
    setKeyInActivityInfoMapQry =
      "INSERT INTO activity_info_maps\n(shard_id, domain_id, workflow_id, run_id, schedule_id, data,data_encoding,last_heartbeat_details,last_heartbeat_updated_time)\nVALUES\n(:shard_id, :domain_id, :workflow_id, :run_id, :schedule_id, :data,:data_encoding,:last_heartbeat_details,:last_heartbeat_updated_time)\nON CONFLICT (shard_id, domain_id, workflow_id, run_id, schedule_id) DO UPDATE\n\tSET (shard_id, domain_id, workflow_id, run_id, schedule_id, data,data_encoding,last_heartbeat_details,last_heartbeat_updated_time)\n  \t  = (excluded.shard_id, excluded.domain_id, excluded.workflow_id, excluded.run_id, excluded.schedule_id, excluded.data,excluded.data_encoding,excluded.last_heartbeat_details,excluded.last_heartbeat_updated_time)" ∧
    setKeyInTimerInfoMapSQLQuery =
      "INSERT INTO timer_info_maps\n(shard_id, domain_id, workflow_id, run_id, timer_id, data,data_encoding)\nVALUES\n(:shard_id, :domain_id, :workflow_id, :run_id, :timer_id, :data,:data_encoding)\nON CONFLICT (shard_id, domain_id, workflow_id, run_id, timer_id) DO UPDATE\n\tSET (shard_id, domain_id, workflow_id, run_id, timer_id, data,data_encoding)\n  \t  = (excluded.shard_id, excluded.domain_id, excluded.workflow_id, excluded.run_id, excluded.timer_id, excluded.data,excluded.data_encoding)" ∧
    setKeyInChildExecutionInfoMapQry =
      "INSERT INTO child_execution_info_maps\n(shard_id, domain_id, workflow_id, run_id, initiated_id, data,data_encoding)\nVALUES\n(:shard_id, :domain_id, :workflow_id, :run_id, :initiated_id, :data,:data_encoding)\nON CONFLICT (shard_id, domain_id, workflow_id, run_id, initiated_id) DO UPDATE\n\tSET (shard_id, domain_id, workflow_id, run_id, initiated_id, data,data_encoding)\n  \t  = (excluded.shard_id, excluded.domain_id, excluded.workflow_id, excluded.run_id, excluded.initiated_id, excluded.data,excluded.data_encoding)" ∧
    setKeyInRequestCancelInfoMapQry =
      "INSERT INTO request_cancel_info_maps\n(shard_id, domain_id, workflow_id, run_id, initiated_id, data,data_encoding)\nVALUES\n(:shard_id, :domain_id, :workflow_id, :run_id, :initiated_id, :data,:data_encoding)\nON CONFLICT (shard_id, domain_id, workflow_id, run_id, initiated_id) DO UPDATE\n\tSET (shard_id, domain_id, workflow_id, run_id, initiated_id, data,data_encoding)\n  \t  = (excluded.shard_id, excluded.domain_id, excluded.workflow_id, excluded.run_id, excluded.initiated_id, excluded.data,excluded.data_encoding)" ∧
    setKeyInSignalInfoMapQry =
      "INSERT INTO signal_info_maps\n(shard_id, domain_id, workflow_id, run_id, initiated_id, data,data_encoding)\nVALUES\n(:shard_id, :domain_id, :workflow_id, :run_id, :initiated_id, :data,:data_encoding)\nON CONFLICT (shard_id, domain_id, workflow_id, run_id, initiated_id) DO UPDATE\n\tSET (shard_id, domain_id, workflow_id, run_id, initiated_id, data,data_encoding)\n  \t  = (excluded.shard_id, excluded.domain_id, excluded.workflow_id, excluded.run_id, excluded.initiated_id, excluded.data,excluded.data_encoding)" ∧
    (∀ (r : ActivityInfoMapsRow) (t : List ActivityInfoMapsRow),
      t.any (fun x => decide (x.pk = r.pk)) = true →
      upsertActivityRow r t = t.map fun x => if x.pk = r.pk then r else x) ∧
    (∀ (r : TimerInfoMapsRow) (t : List TimerInfoMapsRow),
      t.any (fun x => decide (x.pk = r.pk)) = true →
      upsertPayloadRow timerInfoKey timerInfoColumns r t =
        t.map fun x => if x.pk = r.pk then r else x) ∧
    (∀ (r : ChildExecutionInfoMapsRow) (t : List ChildExecutionInfoMapsRow),
      t.any (fun x => decide (x.pk = r.pk)) = true →
      upsertPayloadRow childExecutionInfoKey childExecutionInfoColumns r t =
        t.map fun x => if x.pk = r.pk then r else x) ∧
    (∀ (r : RequestCancelInfoMapsRow) (t : List RequestCancelInfoMapsRow),
      t.any (fun x => decide (x.pk = r.pk)) = true →
      upsertPayloadRow requestCancelInfoKey requestCancelInfoColumns r t =
        t.map fun x => if x.pk = r.pk then r else x) ∧
    (∀ (r : SignalInfoMapsRow) (t : List SignalInfoMapsRow),
      t.any (fun x => decide (x.pk = r.pk)) = true →
      upsertPayloadRow signalInfoKey signalInfoColumns r t =
        t.map fun x => if x.pk = r.pk then r else x) := by
  refine ⟨by decide, by decide, by decide, by decide, by decide, ?_, ?_, ?_, ?_, ?_⟩
  · intro r t h
    simp only [upsertActivityRow, if_pos h, updateActivityColumns_full]
  · intro r t h
    simp only [upsertPayloadRow, if_pos h, timerInfoKey, timerInfoColumns,
      updatePayloadColumns_timer]
  · intro r t h
    simp only [upsertPayloadRow, if_pos h, childExecutionInfoKey, childExecutionInfoColumns,
      updatePayloadColumns_initiated]
  · intro r t h
    simp only [upsertPayloadRow, if_pos h, requestCancelInfoKey, requestCancelInfoColumns,
      updatePayloadColumns_initiated]
  · intro r t h
    simp only [upsertPayloadRow, if_pos h, signalInfoKey, signalInfoColumns,
      updatePayloadColumns_initiated]

/-- C1 witness: upserting a row whose key is already present replaces the
prior row wholesale and leaves the other key of the execution untouched. -/
theorem c1_witness :
    upsertActivityRow ⟨1, "d", "w", "r", 7, [9], "thriftrw", [8], 2000⟩
      [⟨1, "d", "w", "r", 7, [1], "json", [2], 1000⟩,
       ⟨1, "d", "w", "r", 8, [3], "json", [4], 1500⟩] =
      [⟨1, "d", "w", "r", 7, [9], "thriftrw", [8], 2000⟩,
       ⟨1, "d", "w", "r", 8, [3], "json", [4], 1500⟩] := by
  rw [c1_upsert_full_row_replacement.2.2.2.2.2.1
    ⟨1, "d", "w", "r", 7, [9], "thriftrw", [8], 2000⟩
    [⟨1, "d", "w", "r", 7, [1], "json", [2], 1000⟩,
     ⟨1, "d", "w", "r", 8, [3], "json", [4], 1500⟩] (by decide)]
  decide

/-- C7: the delete statements of every kind constrain on the full execution
identity — delete-by-key-set removes exactly the rows of that execution
whose key is in the set, and delete-all removes exactly the rows of that
execution, leaving every other execution's rows (even on the same physical
shard) and every other key untouched. -/
theorem c7_delete_touches_only_matching_rows :
    deleteActivityInfoMapQry =
      "DELETE FROM activity_info_maps\nWHERE\nshard_id = $1 AND\ndomain_id = $2 AND\nworkflow_id = $3 AND\nrun_id = $4" ∧
    deleteTimerInfoMapSQLQuery =
      "DELETE FROM timer_info_maps\nWHERE\nshard_id = $1 AND\ndomain_id = $2 AND\nworkflow_id = $3 AND\nrun_id = $4" ∧
    deleteChildExecutionInfoMapQry =
      "DELETE FROM child_execution_info_maps\nWHERE\nshard_id = $1 AND\ndomain_id = $2 AND\nworkflow_id = $3 AND\nrun_id = $4" ∧
    deleteRequestCancelInfoMapQry =
      "DELETE FROM request_cancel_info_maps\nWHERE\nshard_id = $1 AND\ndomain_id = $2 AND\nworkflow_id = $3 AND\nrun_id = $4" ∧
    deleteSignalInfoMapQry =
      "DELETE FROM signal_info_maps\nWHERE\nshard_id = $1 AND\ndomain_id = $2 AND\nworkflow_id = $3 AND\nrun_id = $4" ∧
    deleteKeyInActivityInfoMapQry =
      "DELETE FROM activity_info_maps\nWHERE\nshard_id = ? AND\ndomain_id = ? AND\nworkflow_id = ? AND\nrun_id = ? AND\nschedule_id IN ( ? )" ∧
    deleteKeyInTimerInfoMapSQLQuery =
      "DELETE FROM timer_info_maps\nWHERE\nshard_id = ? AND\ndomain_id = ? AND\nworkflow_id = ? AND\nrun_id = ? AND\ntimer_id IN ( ? )" ∧
    deleteKeyInChildExecutionInfoMapQry =
      "DELETE FROM child_execution_info_maps\nWHERE\nshard_id = ? AND\ndomain_id = ? AND\nworkflow_id = ? AND\nrun_id = ? AND\ninitiated_id IN ( ? )" ∧
    deleteKeyInRequestCancelInfoMapQry =
      "DELETE FROM request_cancel_info_maps\nWHERE\nshard_id = ? AND\ndomain_id = ? AND\nworkflow_id = ? AND\nrun_id = ? AND\ninitiated_id IN ( ? )" ∧
    deleteKeyInSignalInfoMapQry =
      "DELETE FROM signal_info_maps\nWHERE\nshard_id = ? AND\ndomain_id = ? AND\nworkflow_id = ? AND\nrun_id = ? AND\ninitiated_id IN ( ? )" ∧
    (∀ (i : Int × String × String × String) (k1 : Int) (t : List ActivityInfoMapsRow)
      (x : ActivityInfoMapsRow), x ∈ t →
      (x ∈ activityDeleteKeysSem i [k1] t ↔ ¬(x.ident = i ∧ x.scheduleID = k1))) ∧
    (∀ (i : Int × String × String × String) (t : List ActivityInfoMapsRow)
      (x : ActivityInfoMapsRow), x ∈ t →
      (x ∈ activityDeleteAllSem i t ↔ ¬x.ident = i)) ∧
    (∀ (i : Int × String × String × String) (k1 : Int) (t : List (PayloadRow Int))
      (x : PayloadRow Int), x ∈ t →
      (x ∈ payloadDeleteKeysSem i [k1] t ↔ ¬(x.ident = i ∧ x.mapKey = k1))) ∧
    (∀ (i : Int × String × String × String) (t : List (PayloadRow Int))
      (x : PayloadRow Int), x ∈ t →
      (x ∈ payloadDeleteAllSem i t ↔ ¬x.ident = i)) ∧
    (∀ (i : Int × String × String × String) (k1 : String) (t : List (PayloadRow String))
      (x : PayloadRow String), x ∈ t →
      (x ∈ payloadDeleteKeysSem i [k1] t ↔ ¬(x.ident = i ∧ x.mapKey = k1))) ∧
    (∀ (i : Int × String × String × String) (t : List (PayloadRow String))
      (x : PayloadRow String), x ∈ t →
      (x ∈ payloadDeleteAllSem i t ↔ ¬x.ident = i)) ∧
    (∀ (i : Int × String × String × String) (k1 : String) (t : List SignalsRequestedSetsRow)
      (x : SignalsRequestedSetsRow), x ∈ t →
      (x ∈ signalsDeleteKeysSem i [k1] t ↔ ¬(x.ident = i ∧ x.signalID = k1))) ∧
    (∀ (i : Int × String × String × String) (t : List SignalsRequestedSetsRow)
      (x : SignalsRequestedSetsRow), x ∈ t →
      (x ∈ signalsDeleteAllSem i t ↔ ¬x.ident = i)) := by
  refine ⟨by decide, by decide, by decide, by decide, by decide, by decide, by decide,
    by decide, by decide, by decide, ?_, ?_, ?_, ?_, ?_, ?_, ?_, ?_⟩
  · intro i k1 t x hx
    simp [activityDeleteKeysSem, List.mem_filter, hx]
    tauto
  · intro i t x hx
    simp [activityDeleteAllSem, List.mem_filter, hx]
  · intro i k1 t x hx
    simp [payloadDeleteKeysSem, List.mem_filter, hx]
    tauto
  · intro i t x hx
    simp [payloadDeleteAllSem, List.mem_filter, hx]
  · intro i k1 t x hx
    simp [payloadDeleteKeysSem, List.mem_filter, hx]
    tauto
  · intro i t x hx
    simp [payloadDeleteAllSem, List.mem_filter, hx]
  · intro i k1 t x hx
    simp [signalsDeleteKeysSem, List.mem_filter, hx]
    tauto
  · intro i t x hx
    simp [signalsDeleteAllSem, List.mem_filter, hx]

/-- C7 witness: in a two-key table, deleting key 7 of the execution keeps
the row keyed 8 of the same execution. -/
theorem c7_witness :
    (⟨1, "d", "w", "r", 8, [3], "json", [4], 0⟩ : ActivityInfoMapsRow) ∈
        activityDeleteKeysSem (1, "d", "w", "r") [7]
          [⟨1, "d", "w", "r", 7, [1], "json", [2], 0⟩,
           ⟨1, "d", "w", "r", 8, [3], "json", [4], 0⟩] ↔
      ¬((⟨1, "d", "w", "r", 8, [3], "json", [4], 0⟩ : ActivityInfoMapsRow).ident =
          (1, "d", "w", "r") ∧
        (⟨1, "d", "w", "r", 8, [3], "json", [4], 0⟩ : ActivityInfoMapsRow).scheduleID = 7) :=
  c7_delete_touches_only_matching_rows.2.2.2.2.2.2.2.2.2.2.1
    (1, "d", "w", "r") 7
    [⟨1, "d", "w", "r", 7, [1], "json", [2], 0⟩, ⟨1, "d", "w", "r", 8, [3], "json", [4], 0⟩]
    ⟨1, "d", "w", "r", 8, [3], "json", [4], 0⟩ (by decide)

/-- C9: the signals-requested insert statement carries ON CONFLICT DO
NOTHING, so inserting a row whose primary key is already present leaves
stored state unchanged and returns no error, unlike the map kinds whose
upsert overwrites the conflicting row. -/
theorem c9_signals_insert_conflict_do_nothing :
    createSignalsRequestedSetQuery =
      "INSERT INTO signals_requested_sets\n(shard_id, domain_id, workflow_id, run_id, signal_id) VALUES\n(:shard_id, :domain_id, :workflow_id, :run_id, :signal_id)\nON CONFLICT (shard_id, domain_id, workflow_id, run_id, signal_id) DO NOTHING" ∧
    (∀ (r x : SignalsRequestedSetsRow) (t : List SignalsRequestedSetsRow),
      x ∈ t → x.pk = r.pk → insertSignalRowIgnore r t = t) ∧
    (∀ rows : List SignalsRequestedSetsRow,
      (InsertIntoSignalsRequestedSets rows).err = none) ∧
    (∀ (r x : PayloadRow Int) (t : List (PayloadRow Int)),
      x ∈ t → x.pk = r.pk →
      upsertPayloadRow signalInfoKey signalInfoColumns r t =
        t.map fun y => if y.pk = r.pk then r else y) := by
  refine ⟨by decide, ?_, ?_, ?_⟩
  · intro r x t hx hpk
    unfold insertSignalRowIgnore
    rw [if_pos (List.any_eq_true.mpr ⟨x, hx, decide_eq_true hpk⟩)]
  · intro rows
    by_cases h : rows.length = 0 <;> simp [InsertIntoSignalsRequestedSets, h]
  · intro r x t hx hpk
    have h : t.any (fun y => decide (y.pk = r.pk)) = true :=
      List.any_eq_true.mpr ⟨x, hx, decide_eq_true hpk⟩
    simp only [upsertPayloadRow, if_pos h, signalInfoKey, signalInfoColumns,
      updatePayloadColumns_initiated]

/-- C5: for every collection kind and every filter, every row a Select call
returns carries the filter's identity column values rather than the values
the backend echoed, and the activity kind additionally denormalizes the
last-heartbeat timestamp of each fetched row while preserving its key. -/
theorem c5_select_restamps_identity_from_filter
    (fa : ActivityInfoMapsFilter) (la : List ActivityInfoMapsRow)
    (da : ActivityInfoMapsRow) (ia : Nat) (ha : ia < la.length)
    (ft : TimerInfoMapsFilter) (lt : List TimerInfoMapsRow)
    (fp : ChildExecutionInfoMapsFilter) (lp : List (PayloadRow Int))
    (fs : SignalsRequestedSetsFilter) (ls : List SignalsRequestedSetsRow) :
    (∀ x ∈ SelectFromActivityInfoMaps fa la,
      x.shardID = fa.shardID ∧ x.domainID = fa.domainID ∧
      x.workflowID = fa.workflowID ∧ x.runID = fa.runID) ∧
    ((SelectFromActivityInfoMaps fa la).getD ia da).lastHeartbeatUpdatedTime =
      fromPostgresDateTime ((la.getD ia da).lastHeartbeatUpdatedTime) ∧
    ((SelectFromActivityInfoMaps fa la).getD ia da).scheduleID =
      (la.getD ia da).scheduleID ∧
    (∀ x ∈ SelectFromTimerInfoMaps ft lt,
      x.shardID = ft.shardID ∧ x.domainID = ft.domainID ∧
      x.workflowID = ft.workflowID ∧ x.runID = ft.runID) ∧
    (∀ x ∈ SelectFromChildExecutionInfoMaps fp lp,
      x.shardID = fp.shardID ∧ x.domainID = fp.domainID ∧
      x.workflowID = fp.workflowID ∧ x.runID = fp.runID) ∧
    (∀ x ∈ SelectFromRequestCancelInfoMaps fp lp,
      x.shardID = fp.shardID ∧ x.domainID = fp.domainID ∧
      x.workflowID = fp.workflowID ∧ x.runID = fp.runID) ∧
    (∀ x ∈ SelectFromSignalInfoMaps fp lp,
      x.shardID = fp.shardID ∧ x.domainID = fp.domainID ∧
      x.workflowID = fp.workflowID ∧ x.runID = fp.runID) ∧
    (∀ x ∈ SelectFromSignalsRequestedSets fs ls,
      x.shardID = fs.shardID ∧ x.domainID = fs.domainID ∧
      x.workflowID = fs.workflowID ∧ x.runID = fs.runID) := by
  refine ⟨?_, ?_, ?_, ?_, ?_, ?_, ?_, ?_⟩
  · intro x hx
    obtain ⟨y, hy, rfl⟩ := List.mem_map.mp hx
    exact ⟨rfl, rfl, rfl, rfl⟩
  · simp only [SelectFromActivityInfoMaps]
    rw [getD_map_lt _ la ia ha da]
  · simp only [SelectFromActivityInfoMaps]
    rw [getD_map_lt _ la ia ha da]
  · intro x hx
    obtain ⟨y, hy, rfl⟩ := List.mem_map.mp hx
    exact ⟨rfl, rfl, rfl, rfl⟩
  · intro x hx
    obtain ⟨y, hy, rfl⟩ := List.mem_map.mp hx
    exact ⟨rfl, rfl, rfl, rfl⟩
  · intro x hx
    obtain ⟨y, hy, rfl⟩ := List.mem_map.mp hx
    exact ⟨rfl, rfl, rfl, rfl⟩
  · intro x hx
    obtain ⟨y, hy, rfl⟩ := List.mem_map.mp hx
    exact ⟨rfl, rfl, rfl, rfl⟩
  · intro x hx
    obtain ⟨y, hy, rfl⟩ := List.mem_map.mp hx
    exact ⟨rfl, rfl, rfl, rfl⟩

/-- C5 witness: the heartbeat conjunct at a one-row fetched list whose
stored identity deliberately disagrees with the filter. -/
theorem c5_witness :
    ((SelectFromActivityInfoMaps ⟨1, "d", "w", "r", []⟩
        [⟨9, "other", "other", "other", 7, [1], "json", [2], 5555⟩]).getD 0
        ⟨0, "", "", "", 0, [], "", [], 0⟩).lastHeartbeatUpdatedTime =
      fromPostgresDateTime
        (([(⟨9, "other", "other", "other", 7, [1], "json", [2], 5555⟩ :
            ActivityInfoMapsRow)].getD 0
          ⟨0, "", "", "", 0, [], "", [], 0⟩).lastHeartbeatUpdatedTime) :=
  (c5_select_restamps_identity_from_filter ⟨1, "d", "w", "r", []⟩
    [⟨9, "other", "other", "other", 7, [1], "json", [2], 5555⟩]
    ⟨0, "", "", "", 0, [], "", [], 0⟩ 0 (by decide)
    ⟨1, "d", "w", "r", []⟩ [] ⟨1, "d", "w", "r", []⟩ [] ⟨1, "d", "w", "r", []⟩ []).2.1

/-- C10: a non-empty activity Replace overwrites the last-heartbeat
timestamp of every element of the caller-supplied rows slice in place with
its backend-converted value before the statement executes, leaves every
other field of every element unchanged, and binds the mutated rows in the
executed statement. -/
theorem c10_replace_mutates_caller_slice (rows : List ActivityInfoMapsRow)
    (d : ActivityInfoMapsRow) (h : 0 < rows.length) :
    (ReplaceIntoActivityInfoMaps rows).callerRows =
      rows.map (fun r =>
        { r with lastHeartbeatUpdatedTime := toPostgresDateTime r.lastHeartbeatUpdatedTime }) ∧
    (ReplaceIntoActivityInfoMaps rows).callerRows.length = rows.length ∧
    (∀ i, i < rows.length →
      ((ReplaceIntoActivityInfoMaps rows).callerRows.getD i d).lastHeartbeatUpdatedTime =
        toPostgresDateTime ((rows.getD i d).lastHeartbeatUpdatedTime) ∧
      ((ReplaceIntoActivityInfoMaps rows).callerRows.getD i d).shardID =
        (rows.getD i d).shardID ∧
      ((ReplaceIntoActivityInfoMaps rows).callerRows.getD i d).domainID =
        (rows.getD i d).domainID ∧
      ((ReplaceIntoActivityInfoMaps rows).callerRows.getD i d).workflowID =
        (rows.getD i d).workflowID ∧
      ((ReplaceIntoActivityInfoMaps rows).callerRows.getD i d).runID =
        (rows.getD i d).runID ∧
      ((ReplaceIntoActivityInfoMaps rows).callerRows.getD i d).scheduleID =
        (rows.getD i d).scheduleID ∧
      ((ReplaceIntoActivityInfoMaps rows).callerRows.getD i d).data =
        (rows.getD i d).data ∧
      ((ReplaceIntoActivityInfoMaps rows).callerRows.getD i d).dataEncoding =
        (rows.getD i d).dataEncoding ∧
      ((ReplaceIntoActivityInfoMaps rows).callerRows.getD i d).lastHeartbeatDetails =
        (rows.getD i d).lastHeartbeatDetails) ∧
    (ReplaceIntoActivityInfoMaps rows).stmt =
      some (setKeyInActivityInfoMapQry, (ReplaceIntoActivityInfoMaps rows).callerRows) := by
  have hne : ¬rows.length = 0 := by omega
  have hcr : (ReplaceIntoActivityInfoMaps rows).callerRows =
      rows.map (fun r =>
        { r with lastHeartbeatUpdatedTime := toPostgresDateTime r.lastHeartbeatUpdatedTime }) := by
    simp [ReplaceIntoActivityInfoMaps, hne]
  refine ⟨hcr, by rw [hcr]; simp, ?_, ?_⟩
  · intro i hi
    rw [hcr, getD_map_lt _ rows i hi d]
    exact ⟨rfl, rfl, rfl, rfl, rfl, rfl, rfl, rfl, rfl⟩
  · simp [ReplaceIntoActivityInfoMaps, hne]

/-- C10 witness: the in-place-mutation conjunct at a two-row slice. -/
theorem c10_witness :
    (ReplaceIntoActivityInfoMaps
        [⟨1, "d", "w", "r", 7, [1], "json", [2], 1234567⟩,
         ⟨1, "d", "w", "r", 8, [3], "json", [4], 7654321⟩]).callerRows =
      ([⟨1, "d", "w", "r", 7, [1], "json", [2], 1234567⟩,
        ⟨1, "d", "w", "r", 8, [3], "json", [4], 7654321⟩] :
          List ActivityInfoMapsRow).map (fun r =>
        { r with lastHeartbeatUpdatedTime := toPostgresDateTime r.lastHeartbeatUpdatedTime }) :=
  (c10_replace_mutates_caller_slice
    [⟨1, "d", "w", "r", 7, [1], "json", [2], 1234567⟩,
     ⟨1, "d", "w", "r", 8, [3], "json", [4], 7654321⟩]
    ⟨0, "", "", "", 0, [], "", [], 0⟩ (by decide)).1

/-- An activity Replace of one row followed by a Select with the row's
execution identity returns the row with its heartbeat timestamp carried
through the write conversion and the read denormalization, and any returned
row with the written key is exactly that row. -/
theorem activityReplaceSelect_roundtrip (r : ActivityInfoMapsRow)
    (t : List ActivityInfoMapsRow) :
    { r with lastHeartbeatUpdatedTime :=
        fromPostgresDateTime (toPostgresDateTime r.lastHeartbeatUpdatedTime) } ∈
      SelectFromActivityInfoMaps ⟨r.shardID, r.domainID, r.workflowID, r.runID, []⟩
        (activitySelectSem r.ident
          (applyActivityReplace (ReplaceIntoActivityInfoMaps [r]).stmt t)) ∧
    (∀ x ∈ SelectFromActivityInfoMaps ⟨r.shardID, r.domainID, r.workflowID, r.runID, []⟩
        (activitySelectSem r.ident
          (applyActivityReplace (ReplaceIntoActivityInfoMaps [r]).stmt t)),
      x.scheduleID = r.scheduleID →
      x = { r with lastHeartbeatUpdatedTime :=
        fromPostgresDateTime (toPostgresDateTime r.lastHeartbeatUpdatedTime) }) := by
  have hstmt : (ReplaceIntoActivityInfoMaps [r]).stmt =
      some (setKeyInActivityInfoMapQry,
        [{ r with lastHeartbeatUpdatedTime := toPostgresDateTime r.lastHeartbeatUpdatedTime }]) := by
    simp [ReplaceIntoActivityInfoMaps]
  have happ : applyActivityReplace (ReplaceIntoActivityInfoMaps [r]).stmt t =
      upsertActivityRow
        { r with lastHeartbeatUpdatedTime := toPostgresDateTime r.lastHeartbeatUpdatedTime } t := by
    rw [hstmt]
    rfl
  constructor
  · have hmem := upsertActivityRow_self_mem
      { r with lastHeartbeatUpdatedTime := toPostgresDateTime r.lastHeartbeatUpdatedTime } t
    have hsel : { r with lastHeartbeatUpdatedTime := toPostgresDateTime r.lastHeartbeatUpdatedTime } ∈
        activitySelectSem r.ident (upsertActivityRow
          { r with lastHeartbeatUpdatedTime := toPostgresDateTime r.lastHeartbeatUpdatedTime } t) :=
      List.mem_filter.mpr ⟨hmem, decide_eq_true rfl⟩
    rw [happ]
    exact List.mem_map.mpr
      ⟨{ r with lastHeartbeatUpdatedTime := toPostgresDateTime r.lastHeartbeatUpdatedTime },
       hsel, rfl⟩
  · intro x hx hsched
    rw [happ] at hx
    obtain ⟨y, hy, hxy⟩ := List.mem_map.mp hx
    have hy2 := List.mem_filter.mp hy
    have hyident : y.ident = r.ident := by
      have := hy2.2
      simpa using this
    have hymk : y.scheduleID = r.scheduleID := by
      rw [← hxy] at hsched
      exact hsched
    have hypk : y.pk =
        ({ r with lastHeartbeatUpdatedTime := toPostgresDateTime r.lastHeartbeatUpdatedTime } :
          ActivityInfoMapsRow).pk := by
      simp only [ActivityInfoMapsRow.pk, ActivityInfoMapsRow.ident, Prod.mk.injEq] at hyident ⊢
      exact ⟨hyident.1, hyident.2.1, hyident.2.2.1, hyident.2.2.2, hymk⟩
    rcases upsertActivityRow_cases _ y t hy2.1 with hyr | ⟨_, hne⟩
    · rw [← hxy, hyr]
    · exact absurd hypk hne

/-- A payload-kind Replace of one row followed by a Select with the row's
execution identity returns the row exactly, and any returned row with the
written key is exactly that row; generic in the kind's key column and value
columns, provided the SET clause covers every column. -/
theorem payloadReplaceSelect_roundtrip {K : Type} [DecidableEq K] (kn : String)
    (vc : List String)
    (hupd : ∀ old incoming : PayloadRow K,
      updatePayloadColumns (payloadSetColumns kn vc) kn old incoming = incoming)
    (query : String) (r : PayloadRow K) (t : List (PayloadRow K)) :
    r ∈ selectFromPayloadMaps ⟨r.shardID, r.domainID, r.workflowID, r.runID, []⟩
        (payloadSelectSem r.ident
          (applyPayloadReplace kn vc (replaceIntoPayloadMaps query [r]).stmt t)) ∧
    (∀ x ∈ selectFromPayloadMaps ⟨r.shardID, r.domainID, r.workflowID, r.runID, []⟩
        (payloadSelectSem r.ident
          (applyPayloadReplace kn vc (replaceIntoPayloadMaps query [r]).stmt t)),
      x.mapKey = r.mapKey → x = r) := by
  have hstmt : (replaceIntoPayloadMaps query [r]).stmt = some (query, [r]) := by
    simp [replaceIntoPayloadMaps]
  have happ : applyPayloadReplace kn vc (replaceIntoPayloadMaps query [r]).stmt t =
      upsertPayloadRow kn vc r t := by
    rw [hstmt]
    rfl
  constructor
  · have hmem := upsertPayloadRow_self_mem kn vc hupd r t
    have hsel : r ∈ payloadSelectSem r.ident (upsertPayloadRow kn vc r t) :=
      List.mem_filter.mpr ⟨hmem, decide_eq_true rfl⟩
    rw [happ]
    exact List.mem_map.mpr ⟨r, hsel, rfl⟩
  · intro x hx hkey
    rw [happ] at hx
    obtain ⟨y, hy, hxy⟩ := List.mem_map.mp hx
    have hy2 := List.mem_filter.mp hy
    have hyident : y.ident = r.ident := by
      have := hy2.2
      simpa using this
    have hymk : y.mapKey = r.mapKey := by
      rw [← hxy] at hkey
      exact hkey
    have hypk : y.pk = r.pk := by
      simp only [PayloadRow.pk, PayloadRow.ident, Prod.mk.injEq] at hyident ⊢
      exact ⟨hyident.1, hyident.2.1, hyident.2.2.1, hyident.2.2.2, hymk⟩
    rcases upsertPayloadRow_cases kn vc hupd r y t hy2.1 with hyr | ⟨_, hne⟩
    · rw [← hxy, hyr]
    · exact absurd hypk hne

/-- C8: for every map kind, a row written by Replace is returned by a Select
with the same execution identity — equal to the input except that the
activity heartbeat timestamp goes through the write conversion and the read
denormalization; the payload kinds round-trip exactly — and it is the only
returned row carrying the written key. -/
theorem c8_replace_select_round_trip
    (ra : ActivityInfoMapsRow) (ta : List ActivityInfoMapsRow)
    (rt : TimerInfoMapsRow) (tt : List TimerInfoMapsRow)
    (rc : ChildExecutionInfoMapsRow) (tc : List ChildExecutionInfoMapsRow)
    (rr : RequestCancelInfoMapsRow) (tr : List RequestCancelInfoMapsRow)
    (rs : SignalInfoMapsRow) (ts : List SignalInfoMapsRow) :
    ({ ra with lastHeartbeatUpdatedTime :=
        fromPostgresDateTime (toPostgresDateTime ra.lastHeartbeatUpdatedTime) } ∈
      SelectFromActivityInfoMaps ⟨ra.shardID, ra.domainID, ra.workflowID, ra.runID, []⟩
        (activitySelectSem ra.ident
          (applyActivityReplace (ReplaceIntoActivityInfoMaps [ra]).stmt ta)) ∧
    (∀ x ∈ SelectFromActivityInfoMaps ⟨ra.shardID, ra.domainID, ra.workflowID, ra.runID, []⟩
        (activitySelectSem ra.ident
          (applyActivityReplace (ReplaceIntoActivityInfoMaps [ra]).stmt ta)),
      x.scheduleID = ra.scheduleID →
      x = { ra with lastHeartbeatUpdatedTime :=
        fromPostgresDateTime (toPostgresDateTime ra.lastHeartbeatUpdatedTime) })) ∧
    (rt ∈ SelectFromTimerInfoMaps ⟨rt.shardID, rt.domainID, rt.workflowID, rt.runID, []⟩
        (payloadSelectSem rt.ident
          (applyPayloadReplace timerInfoKey timerInfoColumns
            (ReplaceIntoTimerInfoMaps [rt]).stmt tt)) ∧
    (∀ x ∈ SelectFromTimerInfoMaps ⟨rt.shardID, rt.domainID, rt.workflowID, rt.runID, []⟩
        (payloadSelectSem rt.ident
          (applyPayloadReplace timerInfoKey timerInfoColumns
            (ReplaceIntoTimerInfoMaps [rt]).stmt tt)),
      x.mapKey = rt.mapKey → x = rt)) ∧
    (rc ∈ SelectFromChildExecutionInfoMaps ⟨rc.shardID, rc.domainID, rc.workflowID, rc.runID, []⟩
        (payloadSelectSem rc.ident
          (applyPayloadReplace childExecutionInfoKey childExecutionInfoColumns
            (ReplaceIntoChildExecutionInfoMaps [rc]).stmt tc)) ∧
    (∀ x ∈ SelectFromChildExecutionInfoMaps ⟨rc.shardID, rc.domainID, rc.workflowID, rc.runID, []⟩
        (payloadSelectSem rc.ident
          (applyPayloadReplace childExecutionInfoKey childExecutionInfoColumns
            (ReplaceIntoChildExecutionInfoMaps [rc]).stmt tc)),
      x.mapKey = rc.mapKey → x = rc)) ∧
    (rr ∈ SelectFromRequestCancelInfoMaps ⟨rr.shardID, rr.domainID, rr.workflowID, rr.runID, []⟩
        (payloadSelectSem rr.ident
          (applyPayloadReplace requestCancelInfoKey requestCancelInfoColumns
            (ReplaceIntoRequestCancelInfoMaps [rr]).stmt tr)) ∧
    (∀ x ∈ SelectFromRequestCancelInfoMaps ⟨rr.shardID, rr.domainID, rr.workflowID, rr.runID, []⟩
        (payloadSelectSem rr.ident
          (applyPayloadReplace requestCancelInfoKey requestCancelInfoColumns
            (ReplaceIntoRequestCancelInfoMaps [rr]).stmt tr)),
      x.mapKey = rr.mapKey → x = rr)) ∧
    (rs ∈ SelectFromSignalInfoMaps ⟨rs.shardID, rs.domainID, rs.workflowID, rs.runID, []⟩
        (payloadSelectSem rs.ident
          (applyPayloadReplace signalInfoKey signalInfoColumns
            (ReplaceIntoSignalInfoMaps [rs]).stmt ts)) ∧
    (∀ x ∈ SelectFromSignalInfoMaps ⟨rs.shardID, rs.domainID, rs.workflowID, rs.runID, []⟩
        (payloadSelectSem rs.ident
          (applyPayloadReplace signalInfoKey signalInfoColumns
            (ReplaceIntoSignalInfoMaps [rs]).stmt ts)),
      x.mapKey = rs.mapKey → x = rs)) := by
  refine ⟨activityReplaceSelect_roundtrip ra ta,
    payloadReplaceSelect_roundtrip timerInfoKey timerInfoColumns
      (fun old incoming => updatePayloadColumns_timer old incoming)
      setKeyInTimerInfoMapSQLQuery rt tt,
    payloadReplaceSelect_roundtrip childExecutionInfoKey childExecutionInfoColumns
      (fun old incoming => updatePayloadColumns_initiated old incoming)
      setKeyInChildExecutionInfoMapQry rc tc,
    payloadReplaceSelect_roundtrip requestCancelInfoKey requestCancelInfoColumns
      (fun old incoming => updatePayloadColumns_initiated old incoming)
      setKeyInRequestCancelInfoMapQry rr tr,
    payloadReplaceSelect_roundtrip signalInfoKey signalInfoColumns
      (fun old incoming => updatePayloadColumns_initiated old incoming)
      setKeyInSignalInfoMapQry rs ts⟩

/-- C8 witness: the activity membership conjunct at a concrete row over an
empty table, with the heartbeat timestamp visibly truncated to microsecond
precision. -/
theorem c8_witness :
    (⟨1, "d", "w", "r", 7, [1], "json", [2], 1234000⟩ : ActivityInfoMapsRow) ∈
      SelectFromActivityInfoMaps ⟨1, "d", "w", "r", []⟩
        (activitySelectSem
          (ActivityInfoMapsRow.ident ⟨1, "d", "w", "r", 7, [1], "json", [2], 1234567⟩)
          (applyActivityReplace (ReplaceIntoActivityInfoMaps
            [⟨1, "d", "w", "r", 7, [1], "json", [2], 1234567⟩]).stmt [])) :=
  (c8_replace_select_round_trip ⟨1, "d", "w", "r", 7, [1], "json", [2], 1234567⟩ []
    ⟨1, "d", "w", "r", "t", [], ""⟩ [] ⟨1, "d", "w", "r", 1, [], ""⟩ []
    ⟨1, "d", "w", "r", 1, [], ""⟩ [] ⟨1, "d", "w", "r", 1, [], ""⟩ []).1.1

/-- C9 witness: inserting an already-present signal id leaves the set
unchanged. -/
theorem c9_witness :
    insertSignalRowIgnore ⟨1, "d", "w", "r", "sig1"⟩
      [⟨1, "d", "w", "r", "sig1"⟩, ⟨1, "d", "w", "r", "sig2"⟩] =
      [⟨1, "d", "w", "r", "sig1"⟩, ⟨1, "d", "w", "r", "sig2"⟩] :=
  c9_signals_insert_conflict_do_nothing.2.1
    ⟨1, "d", "w", "r", "sig1"⟩ ⟨1, "d", "w", "r", "sig1"⟩
    [⟨1, "d", "w", "r", "sig1"⟩, ⟨1, "d", "w", "r", "sig2"⟩]
    (by decide) (by decide)

end ExecutionMaps
